import Mathlib

/-!
Verification of the `quest-bind` binding layer (`src/lib.rs`) against its
natural-language specification.

The binding layer wraps a native quantum simulator.  Pure wrapper logic
(argument validation, error translation, resource teardown policy) is
embedded from `src/lib.rs`.  The native routines themselves are external
code declared in the (absent) `ffi` module: they are represented by a
record of unspecified behaviours (`FFI`), universally quantified in the
theorems, except where the specification pins down a concrete behaviour
(the error-callback bridge and the zero-probability collapse), which is
then modelled from the spec and marked as such.

Machine integers (`i32`, `i64`) are embedded as `Int`; the comparisons
performed by the wrapper code never overflow, and the two `as`-casts that
occur are made explicit with `% 2 ^ w`.  The floating-point scalar type
`Qreal` is embedded as `ℚ`: no claim depends on rounding behaviour, only
on exact zero tests and pass-through of values.
-/

namespace QuestBind

/-- The scalar type `Qreal` of the bindings (`precision` module selects an
IEEE float; claims here only need an ordered field with decidable zero
test, so we embed it as `ℚ`). -/
abbrev Qreal := ℚ

/-- A record deposited by the native error callback: the human-readable
message and the name of the native function that raised the error
(spec §3, "Error Capture Slot" fields). -/
structure ErrorRecord where
  err_msg : String
  err_func : String
  deriving DecidableEq, Repr

/-- The process-wide Error Capture Slot: at most one pending error record
(spec §3). -/
abbrev Slot := Option ErrorRecord

/-- `QuestError` from `src/lib.rs` lines 27-52.  `NulError` and
`IntoStringError` wrap std library error payloads that carry no
information used by the bindings, so they are embedded as bare tags. -/
inductive QuestError where
  | invalidQuESTInputError (err_msg : String) (err_func : String)
  | nulError
  | intoStringError
  | arrayLengthError
  | qubitIndexError
  deriving DecidableEq, Repr

/-- The outcome of one native unit of work, as seen by the bridge: either
it completes and produces a value without touching the slot, or the
native error callback fires with an `ErrorRecord` and control is
redirected back to the bridge (no value is produced). -/
abbrev NativeWork (α : Type) := Except ErrorRecord α

/-- Modelled from the spec: `catch_quest_exception` from the `exceptions`
module, which is declared in `src/lib.rs` (lines 5-6) but whose source
file is not part of the sources provided.  Spec §4.1/§9: the callback
writes the message and function name into the Error Capture Slot and
control is redirected away from normal continuation; immediately after
the call the bridge checks and atomically clears the slot, translating a
pending record into an `InvalidQuESTInputError` failure; otherwise the
unit of work's own result is returned.  The function maps the slot state
before the call and the unit of work to the call's result and the slot
state after the call. -/
def catch_quest_exception {α : Type} (slot : Slot) (work : NativeWork α) :
    Except QuestError α × Slot :=
  match work with
  | .error e =>
    (.error (QuestError.invalidQuESTInputError e.err_msg e.err_func), none)
  | .ok a =>
    match slot with
    | some e =>
      (.error (QuestError.invalidQuESTInputError e.err_msg e.err_func), none)
    | none => (.ok a, none)

/-- `QuestEnv` wrapper (`src/lib.rs` line 345): an opaque environment
handle; nothing of it is read by the embedded operations. -/
structure QuestEnv where
  deriving DecidableEq, Repr

/-- `ffi::Qureg`, the native register record.  The wrapper reads its
`isDensityMatrix` and `numQubitsRepresented` fields; the simulated
quantum state it points to is opaque to the binding layer, and the only
observable of it the claims need is the outcome-probability map used by
the native `collapseToOutcome` validation. -/
structure FfiQureg where
  isDensityMatrix : Int
  numQubitsRepresented : Int
  probOfOutcome : Int → Int → Qreal

/-- `Qureg` wrapper (`src/lib.rs` lines 258-262): the native register
record plus a back-reference to the environment used for teardown. -/
structure Qureg where
  env : QuestEnv
  reg : FfiQureg

/-- `Qureg::is_density_matrix` (`src/lib.rs` lines 325-328). -/
def Qureg.is_density_matrix (q : Qureg) : Bool :=
  q.reg.isDensityMatrix ≠ 0

/-- `Qureg::num_qubits_represented` (`src/lib.rs` lines 330-333). -/
def Qureg.num_qubits_represented (q : Qureg) : Int :=
  q.reg.numQubitsRepresented

/-- `ffi::ComplexMatrixN` native record; the wrapper reads its
`numQubits` field (`src/lib.rs` line 407). -/
structure FfiComplexMatrixN where
  numQubits : Int
  deriving DecidableEq, Repr

/-- `ComplexMatrixN` wrapper (`src/lib.rs` line 103). -/
structure ComplexMatrixN where
  raw : FfiComplexMatrixN
  deriving DecidableEq, Repr

/-- `ffi::PauliHamil` native record: number of qubits and of sum terms
(set by `createPauliHamil`). -/
structure FfiPauliHamil where
  numQubits : Int
  numSumTerms : Int
  deriving DecidableEq, Repr

/-- `PauliHamil` wrapper (`src/lib.rs` line 156). -/
structure PauliHamil where
  raw : FfiPauliHamil
  deriving DecidableEq, Repr

/-- `ffi::DiagonalOp` native record; the wrapper reads its `numQubits`
field (`src/lib.rs` line 509). -/
structure FfiDiagonalOp where
  numQubits : Int
  deriving DecidableEq, Repr

/-- `DiagonalOp` wrapper (`src/lib.rs` lines 212-216): native record plus
a back-reference to the environment used for teardown. -/
structure DiagonalOp where
  env : QuestEnv
  op : FfiDiagonalOp
  deriving DecidableEq, Repr

/-- `ffi::Complex` native record (real and imaginary parts). -/
structure FfiComplex where
  real : Qreal
  imag : Qreal
  deriving DecidableEq, Repr

/-- `Qcomplex = num::Complex<Qreal>` (`src/lib.rs` line 54). -/
structure Qcomplex where
  re : Qreal
  im : Qreal
  deriving DecidableEq, Repr

/-- `impl From<Qcomplex> for ffi::Complex` (`src/lib.rs` lines 56-63). -/
def Qcomplex.toFfi (z : Qcomplex) : FfiComplex :=
  ⟨z.re, z.im⟩

/-- `PauliOpType` re-exported from the `ffi` module. -/
inductive PauliOpType where
  | PAULI_I
  | PAULI_X
  | PAULI_Y
  | PAULI_Z
  deriving DecidableEq, Repr

/-- The native routines used by the embedded operations.  Each field is
the behaviour of one `ffi` symbol: given the arguments the wrapper passes,
it either completes or fires the error callback with a record.  The
behaviours are unspecified (external native code): theorems quantify over
them.  `getEnvironmentString` is the byte sequence the native routine
writes into the caller's buffer. -/
structure FFI where
  pauliX : FfiQureg → Int → NativeWork Unit
  hadamard : FfiQureg → Int → NativeWork Unit
  rotateX : FfiQureg → Int → Qreal → NativeWork Unit
  compactUnitary : FfiQureg → Int → FfiComplex → FfiComplex → NativeWork Unit
  controlledPauliY : FfiQureg → Int → Int → NativeWork Unit
  swapGate : FfiQureg → Int → Int → NativeWork Unit
  sqrtSwapGate : FfiQureg → Int → Int → NativeWork Unit
  copySubstateToGPU : FfiQureg → Int → Int → NativeWork Unit
  copySubstateFromGPU : FfiQureg → Int → Int → NativeWork Unit
  initComplexMatrixN :
    FfiComplexMatrixN → List (List Qreal) → List (List Qreal) →
      NativeWork Unit
  initPauliHamil :
    FfiPauliHamil → List Qreal → List PauliOpType → NativeWork Unit
  initDiagonalOp : FfiDiagonalOp → List Qreal → List Qreal → NativeWork Unit
  createPauliHamilFromFile : String → NativeWork FfiPauliHamil
  createDiagonalOpFromPauliHamilFile : String → NativeWork FfiDiagonalOp
  writeRecordedQASMToFile : FfiQureg → String → NativeWork Unit
  getEnvironmentString : List Nat
  destroyComplexMatrixN : FfiComplexMatrixN → NativeWork Unit
  destroyPauliHamil : FfiPauliHamil → NativeWork Unit
  destroyDiagonalOp : FfiDiagonalOp → QuestEnv → NativeWork Unit
  destroyQureg : FfiQureg → QuestEnv → NativeWork Unit
  destroyQuESTEnv : QuestEnv → NativeWork Unit

/-- Result of one embedded wrapper operation: the returned `Result`, the
Error Capture Slot after the call, and whether any native routine was
invoked (used to express "without calling native code"). -/
structure OpOut (α : Type) where
  res : Except QuestError α
  slot : Slot
  native : Bool

/-- Wrap a bridged call's outcome as an `OpOut` with the native-invocation
flag set. -/
def bridged {α : Type} (slot : Slot) (work : NativeWork α) : OpOut α :=
  let r := catch_quest_exception slot work
  ⟨r.1, r.2, true⟩

/-- `pauli_x` (`src/lib.rs` lines 2002-2012): upper-bound index check,
then the bridged native call. -/
def pauli_x (ffi : FFI) (slot : Slot) (qureg : Qureg) (target_qubit : Int) :
    OpOut Unit :=
  if target_qubit ≥ qureg.num_qubits_represented then
    ⟨.error QuestError.qubitIndexError, slot, false⟩
  else
    bridged slot (ffi.pauliX qureg.reg target_qubit)

/-- `hadamard` (`src/lib.rs` lines 2095-2105): upper-bound index check,
then the bridged native call. -/
def hadamard (ffi : FFI) (slot : Slot) (qureg : Qureg) (target_qubit : Int) :
    OpOut Unit :=
  if target_qubit ≥ qureg.num_qubits_represented then
    ⟨.error QuestError.qubitIndexError, slot, false⟩
  else
    bridged slot (ffi.hadamard qureg.reg target_qubit)

/-- `rotate_x` (`src/lib.rs` lines 1599-1610): upper-bound index check,
then the bridged native call. -/
def rotate_x (ffi : FFI) (slot : Slot) (qureg : Qureg) (rot_qubit : Int)
    (angle : Qreal) : OpOut Unit :=
  if rot_qubit ≥ qureg.num_qubits_represented then
    ⟨.error QuestError.qubitIndexError, slot, false⟩
  else
    bridged slot (ffi.rotateX qureg.reg rot_qubit angle)

/-- `compact_unitary` (`src/lib.rs` lines 1526-1538): upper-bound index
check, then the bridged native call with `alpha`, `beta` converted to
`ffi::Complex`. -/
def compact_unitary (ffi : FFI) (slot : Slot) (qureg : Qureg)
    (target_qubit : Int) (alpha beta : Qcomplex) : OpOut Unit :=
  if target_qubit ≥ qureg.num_qubits_represented then
    ⟨.error QuestError.qubitIndexError, slot, false⟩
  else
    bridged slot
      (ffi.compactUnitary qureg.reg target_qubit alpha.toFfi beta.toFfi)

/-- `controlled_pauli_y` (`src/lib.rs` lines 2256-2264): the bridged
native call with no index validation of its own. -/
def controlled_pauli_y (ffi : FFI) (slot : Slot) (qureg : Qureg)
    (control_qubit target_qubit : Int) : OpOut Unit :=
  bridged slot (ffi.controlledPauliY qureg.reg control_qubit target_qubit)

/-- `swap_gate` (`src/lib.rs` lines 2928-2936): the bridged call to
`ffi::swapGate`. -/
def swap_gate (ffi : FFI) (slot : Slot) (qureg : Qureg)
    (qubit1 qubit2 : Int) : OpOut Unit :=
  bridged slot (ffi.swapGate qureg.reg qubit1 qubit2)

/-- `sqrt_swap_gate` (`src/lib.rs` lines 2949-2957): the bridged call to
`ffi::swapGate` (the routine named in the source at line 2955). -/
def sqrt_swap_gate (ffi : FFI) (slot : Slot) (qureg : Qureg)
    (qb1 qb2 : Int) : OpOut Unit :=
  bridged slot (ffi.swapGate qureg.reg qb1 qb2)

/-- `copy_substate_to_gpu` (`src/lib.rs` lines 1322-1330): the bridged
call to `ffi::copySubstateToGPU`. -/
def copy_substate_to_gpu (ffi : FFI) (slot : Slot) (qureg : Qureg)
    (start_ind num_amps : Int) : OpOut Unit :=
  bridged slot (ffi.copySubstateToGPU qureg.reg start_ind num_amps)

/-- `copy_substate_from_gpu` (`src/lib.rs` lines 1338-1346): the bridged
call to `ffi::copySubstateToGPU` (the routine named in the source at
line 1344). -/
def copy_substate_from_gpu (ffi : FFI) (slot : Slot) (qureg : Qureg)
    (start_ind num_amps : Int) : OpOut Unit :=
  bridged slot (ffi.copySubstateToGPU qureg.reg start_ind num_amps)

/-- Modelled from the spec: the native routine `collapseToOutcome`, whose
behaviour (external to the bindings) the spec and the wrapper's doc
comment (`src/lib.rs` line 2357, "QuEST throws an exception if
probability of outcome is 0") pin down on the path the claims exercise:
requesting an outcome of probability zero fires the error callback with
a message and the name of the offending function; otherwise the call
returns the outcome's probability. -/
def ffiCollapseToOutcome (st : FfiQureg) (measure_qubit outcome : Int) :
    NativeWork Qreal :=
  if st.probOfOutcome measure_qubit outcome = 0 then
    .error ⟨"Can't collapse to state with zero probability",
            "collapseToOutcome"⟩
  else
    .ok (st.probOfOutcome measure_qubit outcome)

/-- `collapse_to_outcome` (`src/lib.rs` lines 2365-2376): upper-bound
index check, then the bridged native call. -/
def collapse_to_outcome (slot : Slot) (qureg : Qureg)
    (measure_qubit outcome : Int) : OpOut Qreal :=
  if measure_qubit ≥ qureg.num_qubits_represented then
    ⟨.error QuestError.qubitIndexError, slot, false⟩
  else
    bridged slot (ffiCollapseToOutcome qureg.reg measure_qubit outcome)

/-- The binding `let n = m.0.numQubits as usize` of `init_complex_matrix_n`
(`src/lib.rs` line 407): the `i32` value cast `as usize` (wrap at
`2 ^ 64`). -/
def cmnDim (m : ComplexMatrixN) : Nat :=
  (m.raw.numQubits % (2 : Int) ^ 64).toNat

/-- `init_complex_matrix_n` (`src/lib.rs` lines 402-428): the outer and
per-row lengths are checked against `cmnDim` before the bridged native
call. -/
def init_complex_matrix_n (ffi : FFI) (slot : Slot) (m : ComplexMatrixN)
    (real imag : List (List Qreal)) : OpOut Unit :=
  if real.length < cmnDim m ∨ imag.length < cmnDim m then
    ⟨.error QuestError.arrayLengthError, slot, false⟩
  else if (List.range (cmnDim m)).any fun i =>
      decide ((real.getD i []).length < cmnDim m) ||
      decide ((imag.getD i []).length < cmnDim m) then
    ⟨.error QuestError.arrayLengthError, slot, false⟩
  else
    bridged slot (ffi.initComplexMatrixN m.raw real imag)

/-- `init_pauli_hamil` (`src/lib.rs` lines 452-460): the bridged native
call with no pre-call length validation of any kind. -/
def init_pauli_hamil (ffi : FFI) (slot : Slot) (hamil : PauliHamil)
    (coeffs : List Qreal) (codes : List PauliOpType) : OpOut Unit :=
  bridged slot (ffi.initPauliHamil hamil.raw coeffs codes)

/-- The binding `let len_required = 2usize.pow(op.op.numQubits as u32)` of
`init_diagonal_op` (`src/lib.rs` line 509): the `i32` value cast `as u32`
(wrap at `2 ^ 32`), then used as an exponent. -/
def diagLenRequired (op : DiagonalOp) : Nat :=
  2 ^ (op.op.numQubits % (2 : Int) ^ 32).toNat

/-- `init_diagonal_op` (`src/lib.rs` lines 504-515): `assert!` panics —
embedded as `none` — when either slice is shorter than `diagLenRequired`;
otherwise the bridged native call. -/
def init_diagonal_op (ffi : FFI) (slot : Slot) (op : DiagonalOp)
    (real imag : List Qreal) : Option (OpOut Unit) :=
  if real.length < diagLenRequired op ∨ imag.length < diagLenRequired op then
    none
  else
    some (bridged slot (ffi.initDiagonalOp op.op real imag))

/-- `CString::new` as used by the wrappers (`map_err(QuestError::NulError)`):
fails exactly when the string contains an interior NUL byte. -/
def cstring_new (s : String) : Except QuestError String :=
  if s.data.contains (Char.ofNat 0) then .error QuestError.nulError
  else .ok s

/-- `PauliHamil::try_new_from_file` (`src/lib.rs` lines 197-202): the
path is converted with `CString::new` (returning `NulError` on failure,
before any native call), then the bridged native call. -/
def PauliHamil.try_new_from_file (ffi : FFI) (slot : Slot) (fn : String) :
    OpOut PauliHamil :=
  match cstring_new fn with
  | .error e => ⟨.error e, slot, false⟩
  | .ok filename =>
    let r := catch_quest_exception slot (ffi.createPauliHamilFromFile filename)
    ⟨r.1.map PauliHamil.mk, r.2, true⟩

/-- `DiagonalOp::try_new_from_file` (`src/lib.rs` lines 231-246): the
path is converted with `CString::new` (returning `NulError` on failure,
before any native call), then the bridged native call. -/
def DiagonalOp.try_new_from_file (ffi : FFI) (slot : Slot) (fn : String)
    (env : QuestEnv) : OpOut DiagonalOp :=
  match cstring_new fn with
  | .error e => ⟨.error e, slot, false⟩
  | .ok filename =>
    let r := catch_quest_exception slot
      (ffi.createDiagonalOpFromPauliHamilFile filename)
    ⟨r.1.map (fun op => ⟨env, op⟩), r.2, true⟩

/-- `write_recorded_qasm_to_file` (`src/lib.rs` lines 2718-2729): the
filename is converted with `CString::new` (returning `NulError` on
failure, before any native call), then the bridged native call. -/
def write_recorded_qasm_to_file (ffi : FFI) (slot : Slot) (qureg : Qureg)
    (filename : String) : OpOut Unit :=
  match cstring_new filename with
  | .error e => ⟨.error e, slot, false⟩
  | .ok filename_cstr =>
    bridged slot (ffi.writeRecordedQASMToFile qureg.reg filename_cstr)

/-- Whether a byte is a UTF-8 continuation byte (`0x80..=0xBF`). -/
def utf8cont (c : Nat) : Bool :=
  decide (0x80 ≤ c) && decide (c ≤ 0xBF)

/-- UTF-8 validity of a byte sequence (RFC 3629), the validity notion of
`CString::into_string`. -/
def validUtf8 : List Nat → Bool
  | [] => true
  | b :: r =>
    if b ≤ 0x7F then validUtf8 r
    else if 0xC2 ≤ b ∧ b ≤ 0xDF then
      match r with
      | c1 :: r1 => utf8cont c1 && validUtf8 r1
      | [] => false
    else if b = 0xE0 then
      match r with
      | c1 :: c2 :: r2 =>
        decide (0xA0 ≤ c1) && decide (c1 ≤ 0xBF) && utf8cont c2 &&
          validUtf8 r2
      | _ => false
    else if (0xE1 ≤ b ∧ b ≤ 0xEC) ∨ (0xEE ≤ b ∧ b ≤ 0xEF) then
      match r with
      | c1 :: c2 :: r2 => utf8cont c1 && utf8cont c2 && validUtf8 r2
      | _ => false
    else if b = 0xED then
      match r with
      | c1 :: c2 :: r2 =>
        decide (0x80 ≤ c1) && decide (c1 ≤ 0x9F) && utf8cont c2 &&
          validUtf8 r2
      | _ => false
    else if b = 0xF0 then
      match r with
      | c1 :: c2 :: c3 :: r3 =>
        decide (0x90 ≤ c1) && decide (c1 ≤ 0xBF) && utf8cont c2 &&
          utf8cont c3 && validUtf8 r3
      | _ => false
    else if 0xF1 ≤ b ∧ b ≤ 0xF3 then
      match r with
      | c1 :: c2 :: c3 :: r3 =>
        utf8cont c1 && utf8cont c2 && utf8cont c3 && validUtf8 r3
      | _ => false
    else if b = 0xF4 then
      match r with
      | c1 :: c2 :: c3 :: r3 =>
        decide (0x80 ≤ c1) && decide (c1 ≤ 0x8F) && utf8cont c2 &&
          utf8cont c3 && validUtf8 r3
      | _ => false
    else false

/-- `CString::into_string` applied to the native-filled buffer, with the
string modelled as its byte sequence: fails with `IntoStringError`
exactly when the bytes are not valid UTF-8. -/
def into_string (bytes : List Nat) : Except QuestError (List Nat) :=
  if validUtf8 bytes then .ok bytes else .error QuestError.intoStringError

/-- `get_environment_string` (`src/lib.rs` lines 1272-1286): the buffer
template built by `CString::new` contains no NUL, so that conversion
always succeeds; the native routine fills the buffer, and inside the
bridged unit of work the buffer is converted back with
`CString::into_string`, mapping failure to `IntoStringError`.  The outer
`.expect` unwraps the bridge's result; the `.expect` panic (which no
execution reaches when the slot starts empty) is embedded as `none`. -/
def get_environment_string (ffi : FFI) (slot : Slot) :
    Option (Except QuestError (List Nat)) × Slot :=
  let r := catch_quest_exception slot
    (Except.ok (into_string ffi.getEnvironmentString))
  (match r.1 with
   | .ok v => some v
   | .error _ => none,
   r.2)

/-- How control leaves a Rust destructor in the embedding: a normal
return, or a panic raised by `.unwrap()` / `.expect(..)` on an `Err`. -/
inductive DropOutcome where
  | returnsNormally
  | panics
  deriving DecidableEq, Repr

/-- `.unwrap()` / `.expect(..)` on the bridge's result: panics exactly on
a failure value. -/
def unwrapOutcome {α : Type} (r : Except QuestError α) : DropOutcome :=
  match r with
  | .ok _ => DropOutcome.returnsNormally
  | .error _ => DropOutcome.panics

/-- `impl Drop for ComplexMatrixN` (`src/lib.rs` lines 131-136): the
bridged native destroy call, then `.unwrap()`. -/
def ComplexMatrixN.drop (ffi : FFI) (slot : Slot) (m : ComplexMatrixN) :
    DropOutcome × Slot :=
  let r := catch_quest_exception slot (ffi.destroyComplexMatrixN m.raw)
  (unwrapOutcome r.1, r.2)

/-- `impl Drop for PauliHamil` (`src/lib.rs` lines 205-210): the bridged
native destroy call, then `.expect(..)`. -/
def PauliHamil.drop (ffi : FFI) (slot : Slot) (hamil : PauliHamil) :
    DropOutcome × Slot :=
  let r := catch_quest_exception slot (ffi.destroyPauliHamil hamil.raw)
  (unwrapOutcome r.1, r.2)

/-- `impl Drop for DiagonalOp` (`src/lib.rs` lines 249-256): the bridged
native destroy call, then `.expect(..)`. -/
def DiagonalOp.drop (ffi : FFI) (slot : Slot) (op : DiagonalOp) :
    DropOutcome × Slot :=
  let r := catch_quest_exception slot (ffi.destroyDiagonalOp op.op op.env)
  (unwrapOutcome r.1, r.2)

/-- `impl Drop for Qureg` (`src/lib.rs` lines 336-343): the bridged
native destroy call, then `.expect(..)`. -/
def Qureg.drop (ffi : FFI) (slot : Slot) (q : Qureg) :
    DropOutcome × Slot :=
  let r := catch_quest_exception slot (ffi.destroyQureg q.reg q.env)
  (unwrapOutcome r.1, r.2)

/-- `impl Drop for QuestEnv` (`src/lib.rs` lines 367-372): the bridged
native destroy call, then `.expect(..)`. -/
def QuestEnv.drop (ffi : FFI) (slot : Slot) (env : QuestEnv) :
    DropOutcome × Slot :=
  let r := catch_quest_exception slot (ffi.destroyQuESTEnv env)
  (unwrapOutcome r.1, r.2)

/-- Replace only the `sqrtSwapGate` behaviour of a native-routine record
(used to express that an operation does not depend on that routine). -/
def FFI.withSqrtSwapGate (ffi : FFI)
    (g : FfiQureg → Int → Int → NativeWork Unit) : FFI :=
  ⟨ffi.pauliX, ffi.hadamard, ffi.rotateX, ffi.compactUnitary,
   ffi.controlledPauliY, ffi.swapGate, g, ffi.copySubstateToGPU,
   ffi.copySubstateFromGPU, ffi.initComplexMatrixN, ffi.initPauliHamil,
   ffi.initDiagonalOp, ffi.createPauliHamilFromFile,
   ffi.createDiagonalOpFromPauliHamilFile, ffi.writeRecordedQASMToFile,
   ffi.getEnvironmentString, ffi.destroyComplexMatrixN,
   ffi.destroyPauliHamil, ffi.destroyDiagonalOp, ffi.destroyQureg,
   ffi.destroyQuESTEnv⟩

/-- Replace only the `copySubstateFromGPU` behaviour of a native-routine
record (used to express that an operation does not depend on that
routine). -/
def FFI.withCopySubstateFromGPU (ffi : FFI)
    (g : FfiQureg → Int → Int → NativeWork Unit) : FFI :=
  ⟨ffi.pauliX, ffi.hadamard, ffi.rotateX, ffi.compactUnitary,
   ffi.controlledPauliY, ffi.swapGate, ffi.sqrtSwapGate,
   ffi.copySubstateToGPU, g, ffi.initComplexMatrixN, ffi.initPauliHamil,
   ffi.initDiagonalOp, ffi.createPauliHamilFromFile,
   ffi.createDiagonalOpFromPauliHamilFile, ffi.writeRecordedQASMToFile,
   ffi.getEnvironmentString, ffi.destroyComplexMatrixN,
   ffi.destroyPauliHamil, ffi.destroyDiagonalOp, ffi.destroyQureg,
   ffi.destroyQuESTEnv⟩

/-- A sample native-routine record in which every routine completes
without firing the error callback. -/
def ffi0 : FFI :=
  ⟨fun _ _ => .ok (), fun _ _ => .ok (), fun _ _ _ => .ok (),
   fun _ _ _ _ => .ok (), fun _ _ _ => .ok (), fun _ _ _ => .ok (),
   fun _ _ _ => .ok (), fun _ _ _ => .ok (), fun _ _ _ => .ok (),
   fun _ _ _ => .ok (), fun _ _ _ => .ok (), fun _ _ _ => .ok (),
   fun _ => .ok ⟨1, 1⟩, fun _ => .ok ⟨1⟩, fun _ _ => .ok (),
   [72, 105], fun _ => .ok (), fun _ => .ok (), fun _ _ => .ok (),
   fun _ _ => .ok (), fun _ => .ok ()⟩

/-- The error record used by the failing sample record `ffiFail`. -/
def failRec : ErrorRecord :=
  ⟨"native teardown failed", "destroyResource"⟩

/-- A sample native-routine record in which every destroy routine fires
the error callback and the environment-string buffer is filled with a
byte sequence that is not valid UTF-8. -/
def ffiFail : FFI :=
  ⟨fun _ _ => .ok (), fun _ _ => .ok (), fun _ _ _ => .ok (),
   fun _ _ _ _ => .ok (), fun _ _ _ => .ok (), fun _ _ _ => .ok (),
   fun _ _ _ => .ok (), fun _ _ _ => .ok (), fun _ _ _ => .ok (),
   fun _ _ _ => .ok (), fun _ _ _ => .ok (), fun _ _ _ => .ok (),
   fun _ => .ok ⟨1, 1⟩, fun _ => .ok ⟨1⟩, fun _ _ => .ok (),
   [255], fun _ => .error failRec, fun _ => .error failRec,
   fun _ _ => .error failRec, fun _ _ => .error failRec,
   fun _ => .error failRec⟩

/-- A sample state-vector register on `n` qubits whose simulated state
assigns probability `0` to every outcome query (the all-zeros state
queried on outcome `1`, say). -/
def quregOfNum (n : Int) : Qureg :=
  ⟨⟨⟩, ⟨0, n, fun _ _ => 0⟩⟩

/-- Helper: the bridge never produces a `QubitIndexError` failure — that
kind only arises from the wrappers' own pre-call validation. -/
theorem bridged_res_ne_qubitIndexError {α : Type} (slot : Slot)
    (work : NativeWork α) :
    (bridged slot work).res ≠ Except.error QuestError.qubitIndexError := by
  cases work with
  | error e => simp [bridged, catch_quest_exception]
  | ok a =>
    cases slot with
    | none => simp [bridged, catch_quest_exception]
    | some e => simp [bridged, catch_quest_exception]

/-- C1: for every bridged call during which the native error callback
fires (the unit of work ends with a callback record `e`), given that the
callback supplies a non-empty message and a non-empty function name, the
call returns a failure of kind `InvalidQuESTInputError` whose message
field and function-name field are both non-empty, and the Error Capture
Slot is empty immediately after the call returns. -/
theorem catch_error_callback_reports_and_clears_slot {α : Type}
    (slot : Slot) (e : ErrorRecord)
    (hm : e.err_msg ≠ "") (hf : e.err_func ≠ "") :
    ∃ msg fnc, msg ≠ "" ∧ fnc ≠ "" ∧
      catch_quest_exception slot (Except.error e : NativeWork α) =
        (Except.error (QuestError.invalidQuESTInputError msg fnc), none) :=
  ⟨e.err_msg, e.err_func, hm, hf, rfl⟩

/-- Witness for C1 at a concrete erroring call. -/
theorem catch_error_callback_reports_and_clears_slot_witness :
    ∃ msg fnc, msg ≠ "" ∧ fnc ≠ "" ∧
      catch_quest_exception none
          (Except.error ⟨"zero probability", "collapseToOutcome"⟩ :
            NativeWork Unit) =
        (Except.error (QuestError.invalidQuESTInputError msg fnc), none) :=
  catch_error_callback_reports_and_clears_slot none
    ⟨"zero probability", "collapseToOutcome"⟩ (by decide) (by decide)

/-- C2: the Error Capture Slot is empty immediately after every bridged
call — the slot never persists an error record across two separate calls
— and, in particular, when a first bridged call fails with a native error
and a second bridged call then performs valid work, the second call
succeeds cleanly. -/
theorem slot_empty_invariant_and_sequential_recovery :
    (∀ (α : Type) (slot : Slot) (work : NativeWork α),
        (catch_quest_exception slot work).2 = none) ∧
    (∀ (α β : Type) (e : ErrorRecord) (b : β),
        (catch_quest_exception
            (catch_quest_exception none (Except.error e : NativeWork α)).2
            (Except.ok b : NativeWork β)).1 = Except.ok b) := by
  constructor
  · intro α slot work
    cases work with
    | error e => rfl
    | ok a =>
      cases slot with
      | none => rfl
      | some e => rfl
  · intro α β e b
    rfl

/-- C8: `sqrt_swap_gate` has exactly the same behaviour as `swap_gate`
for every native-routine record, register, slot state and pair of qubit
indices, and its behaviour does not depend on the native `sqrtSwapGate`
routine at all. -/
theorem sqrt_swap_gate_extensionally_eq_swap_gate :
    (∀ (ffi : FFI) (slot : Slot) (qureg : Qureg) (qb1 qb2 : Int),
        sqrt_swap_gate ffi slot qureg qb1 qb2 =
          swap_gate ffi slot qureg qb1 qb2) ∧
    (∀ (ffi : FFI) (g : FfiQureg → Int → Int → NativeWork Unit)
        (slot : Slot) (qureg : Qureg) (qb1 qb2 : Int),
        sqrt_swap_gate (ffi.withSqrtSwapGate g) slot qureg qb1 qb2 =
          sqrt_swap_gate ffi slot qureg qb1 qb2) :=
  ⟨fun _ _ _ _ _ => rfl, fun _ _ _ _ _ _ => rfl⟩

/-- C9: `copy_substate_from_gpu` has exactly the same behaviour as
`copy_substate_to_gpu` for every native-routine record, register, slot
state, start index and amplitude count, and its behaviour does not depend
on the native `copySubstateFromGPU` routine at all (it never invokes a
from-GPU native copy). -/
theorem copy_substate_from_gpu_extensionally_eq_to_gpu :
    (∀ (ffi : FFI) (slot : Slot) (qureg : Qureg) (start_ind num_amps : Int),
        copy_substate_from_gpu ffi slot qureg start_ind num_amps =
          copy_substate_to_gpu ffi slot qureg start_ind num_amps) ∧
    (∀ (ffi : FFI) (g : FfiQureg → Int → Int → NativeWork Unit)
        (slot : Slot) (qureg : Qureg) (start_ind num_amps : Int),
        copy_substate_from_gpu (ffi.withCopySubstateFromGPU g) slot qureg
            start_ind num_amps =
          copy_substate_from_gpu ffi slot qureg start_ind num_amps) :=
  ⟨fun _ _ _ _ _ => rfl, fun _ _ _ _ _ _ => rfl⟩

/-- C7: for every register, in-range qubit, outcome and slot state, if the
probability of the requested measurement outcome is zero, then
`collapse_to_outcome` returns an `InvalidQuESTInputError` failure value
(the native error is caught and translated; the process does not crash,
and the slot is left empty). -/
theorem collapse_zero_probability_invalid_input
    (slot : Slot) (qureg : Qureg) (measure_qubit outcome : Int)
    (hq : measure_qubit < qureg.num_qubits_represented)
    (hp : qureg.reg.probOfOutcome measure_qubit outcome = 0) :
    ∃ msg fnc,
      (collapse_to_outcome slot qureg measure_qubit outcome).res =
        Except.error (QuestError.invalidQuESTInputError msg fnc) ∧
      (collapse_to_outcome slot qureg measure_qubit outcome).slot = none := by
  refine ⟨"Can't collapse to state with zero probability",
    "collapseToOutcome", ?_, ?_⟩ <;>
    simp [collapse_to_outcome, bridged, ffiCollapseToOutcome,
      catch_quest_exception, hp, not_le.mpr hq]

/-- Witness for C7 at a concrete register and zero-probability outcome. -/
theorem collapse_zero_probability_invalid_input_witness :
    (0 : Int) < (quregOfNum 2).num_qubits_represented ∧
    (quregOfNum 2).reg.probOfOutcome 0 1 = 0 ∧
    ∃ msg fnc,
      (collapse_to_outcome none (quregOfNum 2) 0 1).res =
        Except.error (QuestError.invalidQuESTInputError msg fnc) ∧
      (collapse_to_outcome none (quregOfNum 2) 0 1).slot = none :=
  ⟨by decide, rfl,
   collapse_zero_probability_invalid_input none (quregOfNum 2) 0 1
     (by decide) rfl⟩

/-- C10: for the validating operations `pauli_x`, `hadamard`, `rotate_x`
and `compact_unitary`, a negative qubit index is not rejected: only the
upper-bound comparison against `num_qubits_represented` is performed, so
on any register with a non-negative declared qubit count a negative index
passes validation, the native routine is invoked, and the operation never
returns `QubitIndexError`. -/
theorem negative_index_not_rejected :
    (∀ (ffi : FFI) (slot : Slot) (qureg : Qureg) (i : Int),
        0 ≤ qureg.num_qubits_represented → i < 0 →
        (pauli_x ffi slot qureg i).native = true ∧
        (pauli_x ffi slot qureg i).res ≠
          Except.error QuestError.qubitIndexError) ∧
    (∀ (ffi : FFI) (slot : Slot) (qureg : Qureg) (i : Int),
        0 ≤ qureg.num_qubits_represented → i < 0 →
        (hadamard ffi slot qureg i).native = true ∧
        (hadamard ffi slot qureg i).res ≠
          Except.error QuestError.qubitIndexError) ∧
    (∀ (ffi : FFI) (slot : Slot) (qureg : Qureg) (i : Int) (angle : Qreal),
        0 ≤ qureg.num_qubits_represented → i < 0 →
        (rotate_x ffi slot qureg i angle).native = true ∧
        (rotate_x ffi slot qureg i angle).res ≠
          Except.error QuestError.qubitIndexError) ∧
    (∀ (ffi : FFI) (slot : Slot) (qureg : Qureg) (i : Int)
        (alpha beta : Qcomplex),
        0 ≤ qureg.num_qubits_represented → i < 0 →
        (compact_unitary ffi slot qureg i alpha beta).native = true ∧
        (compact_unitary ffi slot qureg i alpha beta).res ≠
          Except.error QuestError.qubitIndexError) := by
  refine ⟨?_, ?_, ?_, ?_⟩
  · intro ffi slot qureg i hn hi
    have h : ¬ i ≥ qureg.num_qubits_represented :=
      not_le.mpr (lt_of_lt_of_le hi hn)
    rw [pauli_x, if_neg h]
    exact ⟨rfl, bridged_res_ne_qubitIndexError slot _⟩
  · intro ffi slot qureg i hn hi
    have h : ¬ i ≥ qureg.num_qubits_represented :=
      not_le.mpr (lt_of_lt_of_le hi hn)
    rw [hadamard, if_neg h]
    exact ⟨rfl, bridged_res_ne_qubitIndexError slot _⟩
  · intro ffi slot qureg i angle hn hi
    have h : ¬ i ≥ qureg.num_qubits_represented :=
      not_le.mpr (lt_of_lt_of_le hi hn)
    rw [rotate_x, if_neg h]
    exact ⟨rfl, bridged_res_ne_qubitIndexError slot _⟩
  · intro ffi slot qureg i alpha beta hn hi
    have h : ¬ i ≥ qureg.num_qubits_represented :=
      not_le.mpr (lt_of_lt_of_le hi hn)
    rw [compact_unitary, if_neg h]
    exact ⟨rfl, bridged_res_ne_qubitIndexError slot _⟩

/-- Witness for C10 at a concrete register and negative index. -/
theorem negative_index_not_rejected_witness :
    (0 : Int) ≤ (quregOfNum 2).num_qubits_represented ∧
    (-1 : Int) < 0 ∧
    (pauli_x ffi0 none (quregOfNum 2) (-1)).native = true ∧
    (pauli_x ffi0 none (quregOfNum 2) (-1)).res ≠
      Except.error QuestError.qubitIndexError ∧
    (hadamard ffi0 none (quregOfNum 2) (-1)).native = true ∧
    (rotate_x ffi0 none (quregOfNum 2) (-1) 0).native = true ∧
    (compact_unitary ffi0 none (quregOfNum 2) (-1) ⟨1, 0⟩ ⟨0, 0⟩).native =
      true := by
  have h1 := negative_index_not_rejected.1 ffi0 none (quregOfNum 2) (-1)
    (by decide) (by decide)
  have h2 := negative_index_not_rejected.2.1 ffi0 none (quregOfNum 2) (-1)
    (by decide) (by decide)
  have h3 := negative_index_not_rejected.2.2.1 ffi0 none (quregOfNum 2) (-1) 0
    (by decide) (by decide)
  have h4 := negative_index_not_rejected.2.2.2 ffi0 none (quregOfNum 2) (-1)
    ⟨1, 0⟩ ⟨0, 0⟩ (by decide) (by decide)
  exact ⟨by decide, by decide, h1.1, h1.2, h2.1, h3.1, h4.1⟩

/-- C3 counterexample: `controlled_pauli_y` takes qubit-index arguments,
yet for a control index `5` on a 1-qubit register (out of range) it does
not return `QubitIndexError` and it invokes the native routine — so it is
false that every exposed operation taking qubit indices rejects an
out-of-range index without invoking native code. -/
theorem controlled_pauli_y_forwards_out_of_range_cex :
    (5 : Int) ≥ (quregOfNum 1).num_qubits_represented ∧
    (controlled_pauli_y ffi0 none (quregOfNum 1) 5 0).native = true ∧
    (controlled_pauli_y ffi0 none (quregOfNum 1) 5 0).res ≠
      Except.error QuestError.qubitIndexError := by
  refine ⟨by decide, rfl, ?_⟩
  have hres : (controlled_pauli_y ffi0 none (quregOfNum 1) 5 0).res =
      Except.ok () := rfl
  rw [hres]
  simp

/-- C3 (amended): the operations that do validate — e.g. `pauli_x`,
`hadamard`, `rotate_x`, `compact_unitary`, `collapse_to_outcome` — return
the `QubitIndexError` failure immediately, without invoking any native
code, whenever a supplied qubit index is at least the register's declared
qubit count; but not every exposed operation taking qubit-index arguments
does so: `controlled_pauli_y` performs no index validation and always
invokes the native routine. -/
theorem qubit_index_validation_amended :
    (∀ (ffi : FFI) (slot : Slot) (qureg : Qureg) (i : Int),
        i ≥ qureg.num_qubits_represented →
        pauli_x ffi slot qureg i =
          ⟨Except.error QuestError.qubitIndexError, slot, false⟩) ∧
    (∀ (ffi : FFI) (slot : Slot) (qureg : Qureg) (i : Int),
        i ≥ qureg.num_qubits_represented →
        hadamard ffi slot qureg i =
          ⟨Except.error QuestError.qubitIndexError, slot, false⟩) ∧
    (∀ (ffi : FFI) (slot : Slot) (qureg : Qureg) (i : Int) (angle : Qreal),
        i ≥ qureg.num_qubits_represented →
        rotate_x ffi slot qureg i angle =
          ⟨Except.error QuestError.qubitIndexError, slot, false⟩) ∧
    (∀ (ffi : FFI) (slot : Slot) (qureg : Qureg) (i : Int)
        (alpha beta : Qcomplex),
        i ≥ qureg.num_qubits_represented →
        compact_unitary ffi slot qureg i alpha beta =
          ⟨Except.error QuestError.qubitIndexError, slot, false⟩) ∧
    (∀ (slot : Slot) (qureg : Qureg) (m o : Int),
        m ≥ qureg.num_qubits_represented →
        collapse_to_outcome slot qureg m o =
          ⟨Except.error QuestError.qubitIndexError, slot, false⟩) ∧
    (∀ (ffi : FFI) (slot : Slot) (qureg : Qureg) (c t : Int),
        (controlled_pauli_y ffi slot qureg c t).native = true) := by
  refine ⟨?_, ?_, ?_, ?_, ?_, ?_⟩
  · intro ffi slot qureg i h
    rw [pauli_x, if_pos h]
  · intro ffi slot qureg i h
    rw [hadamard, if_pos h]
  · intro ffi slot qureg i angle h
    rw [rotate_x, if_pos h]
  · intro ffi slot qureg i alpha beta h
    rw [compact_unitary, if_pos h]
  · intro slot qureg m o h
    rw [collapse_to_outcome, if_pos h]
  · intro ffi slot qureg c t
    rfl

/-- Witness for the amended C3 at concrete out-of-range indices. -/
theorem qubit_index_validation_amended_witness :
    (5 : Int) ≥ (quregOfNum 1).num_qubits_represented ∧
    pauli_x ffi0 none (quregOfNum 1) 5 =
      ⟨Except.error QuestError.qubitIndexError, none, false⟩ ∧
    hadamard ffi0 none (quregOfNum 1) 5 =
      ⟨Except.error QuestError.qubitIndexError, none, false⟩ ∧
    rotate_x ffi0 none (quregOfNum 1) 5 0 =
      ⟨Except.error QuestError.qubitIndexError, none, false⟩ ∧
    compact_unitary ffi0 none (quregOfNum 1) 5 ⟨1, 0⟩ ⟨0, 0⟩ =
      ⟨Except.error QuestError.qubitIndexError, none, false⟩ ∧
    collapse_to_outcome none (quregOfNum 1) 5 0 =
      ⟨Except.error QuestError.qubitIndexError, none, false⟩ ∧
    (controlled_pauli_y ffi0 none (quregOfNum 1) 5 0).native = true :=
  ⟨by decide,
   qubit_index_validation_amended.1 ffi0 none (quregOfNum 1) 5 (by decide),
   qubit_index_validation_amended.2.1 ffi0 none (quregOfNum 1) 5 (by decide),
   qubit_index_validation_amended.2.2.1 ffi0 none (quregOfNum 1) 5 0
     (by decide),
   qubit_index_validation_amended.2.2.2.1 ffi0 none (quregOfNum 1) 5
     ⟨1, 0⟩ ⟨0, 0⟩ (by decide),
   qubit_index_validation_amended.2.2.2.2.1 none (quregOfNum 1) 5 0
     (by decide),
   qubit_index_validation_amended.2.2.2.2.2 ffi0 none (quregOfNum 1) 5 0⟩

/-- A sample Hamiltonian handle on 2 qubits with 2 sum terms, for which
the documented required length of the coefficient array is 2. -/
def hamil22 : PauliHamil := ⟨⟨2, 2⟩⟩

/-- C4 counterexample: `init_pauli_hamil` takes parallel array arguments
(`coeffs` of documented required length `numSumTerms = 2` here), yet with
the empty coefficient array it invokes the native routine and does not
return `ArrayLengthError` — so it is false that every such operation
returns `ArrayLengthError` before any native call when an array is too
short. -/
theorem init_pauli_hamil_no_length_check_cex :
    ([] : List Qreal).length < hamil22.raw.numSumTerms.toNat ∧
    (init_pauli_hamil ffi0 none hamil22 [] []).native = true ∧
    (init_pauli_hamil ffi0 none hamil22 [] []).res ≠
      Except.error QuestError.arrayLengthError := by
  refine ⟨by decide, rfl, ?_⟩
  have hres : (init_pauli_hamil ffi0 none hamil22 [] []).res =
      Except.ok () := rfl
  rw [hres]
  simp

/-- C4 (amended): `init_complex_matrix_n` does return `ArrayLengthError`
before any native call whenever a supplied array is shorter than
required — whether the outer `real` list, the outer `imag` list, or any
row of either within the first `cmnDim` rows is too short; but not every
operation taking parallel arrays does: `init_pauli_hamil` performs no
length validation at all (the native routine is always invoked), and
`init_diagonal_op` panics through an assertion whenever either slice is
too short, instead of returning a failure value. -/
theorem array_length_validation_amended :
    (∀ (ffi : FFI) (slot : Slot) (m : ComplexMatrixN)
        (real imag : List (List Qreal)),
        real.length < cmnDim m ∨ imag.length < cmnDim m →
        init_complex_matrix_n ffi slot m real imag =
          ⟨Except.error QuestError.arrayLengthError, slot, false⟩) ∧
    (∀ (ffi : FFI) (slot : Slot) (m : ComplexMatrixN)
        (real imag : List (List Qreal)),
        (∃ i, i < cmnDim m ∧
          ((real.getD i []).length < cmnDim m ∨
           (imag.getD i []).length < cmnDim m)) →
        init_complex_matrix_n ffi slot m real imag =
          ⟨Except.error QuestError.arrayLengthError, slot, false⟩) ∧
    (∀ (ffi : FFI) (slot : Slot) (hamil : PauliHamil) (coeffs : List Qreal)
        (codes : List PauliOpType),
        (init_pauli_hamil ffi slot hamil coeffs codes).native = true) ∧
    (∀ (ffi : FFI) (slot : Slot) (op : DiagonalOp) (real imag : List Qreal),
        real.length < diagLenRequired op ∨
          imag.length < diagLenRequired op →
        init_diagonal_op ffi slot op real imag = none) := by
  refine ⟨?_, ?_, ?_, ?_⟩
  · intro ffi slot m real imag h
    rw [init_complex_matrix_n, if_pos h]
  · intro ffi slot m real imag hrow
    rw [init_complex_matrix_n]
    by_cases h1 : real.length < cmnDim m ∨ imag.length < cmnDim m
    · rw [if_pos h1]
    · rw [if_neg h1, if_pos ?_]
      obtain ⟨i, hi, hc⟩ := hrow
      refine List.any_eq_true.mpr ⟨i, List.mem_range.mpr hi, ?_⟩
      rcases hc with hc | hc
      · exact Bool.or_eq_true_iff.mpr (Or.inl (decide_eq_true hc))
      · exact Bool.or_eq_true_iff.mpr (Or.inr (decide_eq_true hc))
  · intro ffi slot hamil coeffs codes
    rfl
  · intro ffi slot op real imag h
    rw [init_diagonal_op, if_pos h]

/-- Witness for the amended C4, exercising each too-short case: outer
`real` too short, outer `imag` too short, an inner row too short, the
unchecked `init_pauli_hamil`, and both slices of `init_diagonal_op`. -/
theorem array_length_validation_amended_witness :
    ([] : List (List Qreal)).length < cmnDim ⟨⟨2⟩⟩ ∧
    init_complex_matrix_n ffi0 none ⟨⟨2⟩⟩ [] [[0, 0], [0, 0]] =
      ⟨Except.error QuestError.arrayLengthError, none, false⟩ ∧
    init_complex_matrix_n ffi0 none ⟨⟨2⟩⟩ [[0, 0], [0, 0]] [] =
      ⟨Except.error QuestError.arrayLengthError, none, false⟩ ∧
    (([[0], [0, 0]] : List (List Qreal)).getD 0 []).length < cmnDim ⟨⟨2⟩⟩ ∧
    init_complex_matrix_n ffi0 none ⟨⟨2⟩⟩ [[0], [0, 0]] [[0, 0], [0, 0]] =
      ⟨Except.error QuestError.arrayLengthError, none, false⟩ ∧
    init_complex_matrix_n ffi0 none ⟨⟨2⟩⟩ [[0, 0], [0, 0]] [[0, 0], [0]] =
      ⟨Except.error QuestError.arrayLengthError, none, false⟩ ∧
    (init_pauli_hamil ffi0 none hamil22 [] []).native = true ∧
    init_diagonal_op ffi0 none ⟨⟨⟩, ⟨1⟩⟩ [] [0, 0] = none ∧
    init_diagonal_op ffi0 none ⟨⟨⟩, ⟨1⟩⟩ [0, 0] [] = none :=
  ⟨by decide,
   array_length_validation_amended.1 ffi0 none ⟨⟨2⟩⟩ [] [[0, 0], [0, 0]]
     (Or.inl (by decide)),
   array_length_validation_amended.1 ffi0 none ⟨⟨2⟩⟩ [[0, 0], [0, 0]] []
     (Or.inr (by decide)),
   by decide,
   array_length_validation_amended.2.1 ffi0 none ⟨⟨2⟩⟩ [[0], [0, 0]]
     [[0, 0], [0, 0]] ⟨0, by decide, Or.inl (by decide)⟩,
   array_length_validation_amended.2.1 ffi0 none ⟨⟨2⟩⟩ [[0, 0], [0, 0]]
     [[0, 0], [0]] ⟨1, by decide, Or.inr (by decide)⟩,
   array_length_validation_amended.2.2.1 ffi0 none hamil22 [] [],
   array_length_validation_amended.2.2.2 ffi0 none ⟨⟨⟩, ⟨1⟩⟩ [] [0, 0]
     (Or.inl (by decide)),
   array_length_validation_amended.2.2.2 ffi0 none ⟨⟨⟩, ⟨1⟩⟩ [0, 0] []
     (Or.inr (by decide))⟩

/-- C5: for every resource-handle type (`ComplexMatrixN`, `PauliHamil`,
`DiagonalOp`, `Qureg`, `QuestEnv`), a failure on the destructor path —
the native destroy routine firing the error callback — makes the
destructor panic (an unrecoverable process-level failure); no result
value is returned to the caller. -/
theorem drop_failure_panics :
    (∀ (ffi : FFI) (slot : Slot) (m : ComplexMatrixN) (e : ErrorRecord),
        ffi.destroyComplexMatrixN m.raw = Except.error e →
        (ComplexMatrixN.drop ffi slot m).1 = DropOutcome.panics) ∧
    (∀ (ffi : FFI) (slot : Slot) (hamil : PauliHamil) (e : ErrorRecord),
        ffi.destroyPauliHamil hamil.raw = Except.error e →
        (PauliHamil.drop ffi slot hamil).1 = DropOutcome.panics) ∧
    (∀ (ffi : FFI) (slot : Slot) (op : DiagonalOp) (e : ErrorRecord),
        ffi.destroyDiagonalOp op.op op.env = Except.error e →
        (DiagonalOp.drop ffi slot op).1 = DropOutcome.panics) ∧
    (∀ (ffi : FFI) (slot : Slot) (q : Qureg) (e : ErrorRecord),
        ffi.destroyQureg q.reg q.env = Except.error e →
        (Qureg.drop ffi slot q).1 = DropOutcome.panics) ∧
    (∀ (ffi : FFI) (slot : Slot) (env : QuestEnv) (e : ErrorRecord),
        ffi.destroyQuESTEnv env = Except.error e →
        (QuestEnv.drop ffi slot env).1 = DropOutcome.panics) := by
  refine ⟨?_, ?_, ?_, ?_, ?_⟩
  · intro ffi slot m e h
    simp [ComplexMatrixN.drop, h, catch_quest_exception, unwrapOutcome]
  · intro ffi slot hamil e h
    simp [PauliHamil.drop, h, catch_quest_exception, unwrapOutcome]
  · intro ffi slot op e h
    simp [DiagonalOp.drop, h, catch_quest_exception, unwrapOutcome]
  · intro ffi slot q e h
    simp [Qureg.drop, h, catch_quest_exception, unwrapOutcome]
  · intro ffi slot env e h
    simp [QuestEnv.drop, h, catch_quest_exception, unwrapOutcome]

/-- Witness for C5 at concrete handles with failing native destroys. -/
theorem drop_failure_panics_witness :
    ffiFail.destroyComplexMatrixN ⟨2⟩ = Except.error failRec ∧
    (ComplexMatrixN.drop ffiFail none ⟨⟨2⟩⟩).1 = DropOutcome.panics ∧
    (PauliHamil.drop ffiFail none hamil22).1 = DropOutcome.panics ∧
    (DiagonalOp.drop ffiFail none ⟨⟨⟩, ⟨1⟩⟩).1 = DropOutcome.panics ∧
    (Qureg.drop ffiFail none (quregOfNum 2)).1 = DropOutcome.panics ∧
    (QuestEnv.drop ffiFail none ⟨⟩).1 = DropOutcome.panics :=
  ⟨rfl,
   drop_failure_panics.1 ffiFail none ⟨⟨2⟩⟩ failRec rfl,
   drop_failure_panics.2.1 ffiFail none hamil22 failRec rfl,
   drop_failure_panics.2.2.1 ffiFail none ⟨⟨⟩, ⟨1⟩⟩ failRec rfl,
   drop_failure_panics.2.2.2.1 ffiFail none (quregOfNum 2) failRec rfl,
   drop_failure_panics.2.2.2.2 ffiFail none ⟨⟩ failRec rfl⟩

/-- C6: the text-boundary operations fail with a string-conversion
failure on non-interchange-text: a caller-supplied path containing an
interior NUL byte makes `PauliHamil::try_new_from_file`,
`DiagonalOp::try_new_from_file` and `write_recorded_qasm_to_file` return
`NulError` without invoking any native code, and a native-supplied
environment-string buffer that is not valid UTF-8 makes
`get_environment_string` return `IntoStringError`. -/
theorem string_conversion_failures :
    (∀ (ffi : FFI) (slot : Slot) (fn : String),
        fn.data.contains (Char.ofNat 0) = true →
        PauliHamil.try_new_from_file ffi slot fn =
          ⟨Except.error QuestError.nulError, slot, false⟩) ∧
    (∀ (ffi : FFI) (slot : Slot) (fn : String) (env : QuestEnv),
        fn.data.contains (Char.ofNat 0) = true →
        DiagonalOp.try_new_from_file ffi slot fn env =
          ⟨Except.error QuestError.nulError, slot, false⟩) ∧
    (∀ (ffi : FFI) (slot : Slot) (qureg : Qureg) (fn : String),
        fn.data.contains (Char.ofNat 0) = true →
        write_recorded_qasm_to_file ffi slot qureg fn =
          ⟨Except.error QuestError.nulError, slot, false⟩) ∧
    (∀ ffi : FFI, validUtf8 ffi.getEnvironmentString = false →
        (get_environment_string ffi none).1 =
          some (Except.error QuestError.intoStringError)) := by
  refine ⟨?_, ?_, ?_, ?_⟩
  · intro ffi slot fn h
    have hc : cstring_new fn = Except.error QuestError.nulError := by
      rw [cstring_new, if_pos h]
    simp only [PauliHamil.try_new_from_file, hc]
  · intro ffi slot fn env h
    have hc : cstring_new fn = Except.error QuestError.nulError := by
      rw [cstring_new, if_pos h]
    simp only [DiagonalOp.try_new_from_file, hc]
  · intro ffi slot qureg fn h
    have hc : cstring_new fn = Except.error QuestError.nulError := by
      rw [cstring_new, if_pos h]
    simp only [write_recorded_qasm_to_file, hc]
  · intro ffi h
    have hi : into_string ffi.getEnvironmentString =
        Except.error QuestError.intoStringError := by
      rw [into_string, if_neg]
      simp [h]
    simp only [get_environment_string, catch_quest_exception, hi]

/-- Witness for C6 at a concrete NUL-bearing path and a concrete invalid
byte sequence. -/
theorem string_conversion_failures_witness :
    ("a\x00b".data.contains (Char.ofNat 0) = true) ∧
    PauliHamil.try_new_from_file ffi0 none "a\x00b" =
      ⟨Except.error QuestError.nulError, none, false⟩ ∧
    DiagonalOp.try_new_from_file ffi0 none "a\x00b" ⟨⟩ =
      ⟨Except.error QuestError.nulError, none, false⟩ ∧
    write_recorded_qasm_to_file ffi0 none (quregOfNum 2) "a\x00b" =
      ⟨Except.error QuestError.nulError, none, false⟩ ∧
    validUtf8 ffiFail.getEnvironmentString = false ∧
    (get_environment_string ffiFail none).1 =
      some (Except.error QuestError.intoStringError) :=
  ⟨by decide,
   string_conversion_failures.1 ffi0 none "a\x00b" (by decide),
   string_conversion_failures.2.1 ffi0 none "a\x00b" ⟨⟩ (by decide),
   string_conversion_failures.2.2.1 ffi0 none (quregOfNum 2) "a\x00b"
     (by decide),
   by decide,
   string_conversion_failures.2.2.2 ffiFail (by decide)⟩

end QuestBind
